import Mathlib

/-!
Shallow embedding of the serena-mcp repository (files `serena_server.py`,
`routers/github_utils.py`) and verification of the frozen claims about it.

Modelling conventions:
* JSON values are `JVal`; Python dicts are association lists in insertion
  order (CPython 3.7+ semantics: assignment of an existing key replaces in
  place, a new key is appended at the end).
* A Python exception that escapes a handler is `Except.error` carrying a
  `PyError`; a normal JSON return value is `Except.ok`.  The FastAPI
  boundary turns an `.ok` dict into an HTTP 200 response and lets an
  `.error` escape as a server fault (HTTP 500).
* Network nondeterminism is an explicit oracle `HttpRequest → HttpResponse`
  mapping the request actually issued to the upstream response; `r.json()`
  is the oracle response's `body` (a completed exchange is assumed, as the
  claims under study do not concern transport failures).
* `uuid.uuid4()` is modelled as a supply `uuid : Nat → String` consumed at a
  counter `nextId` carried in the server state; the counter is a modelling
  device only (uuid4 keeps no observable Python state).
-/

namespace Serena

/-- A JSON value (the dispatcher's parameter and result type). -/
inductive JVal where
  | null : JVal
  | bool : Bool → JVal
  | num : Int → JVal
  | str : String → JVal
  | arr : List JVal → JVal
  | obj : List (String × JVal) → JVal

/-- A Python exception escaping a handler (the dispatcher only catches
`json.JSONDecodeError`, so all of these propagate as server faults). -/
inductive PyError where
  | keyError : String → PyError
  | nameError : String → PyError
  | attributeError : String → PyError
  | typeError : String → PyError

/-- First-match lookup in an association list with `String` keys
(Python dict subscript/`get` for dicts with unique keys). -/
def alookup {α : Type} : List (String × α) → String → Option α
  | [], _ => none
  | (k0, v) :: rest, k => if k0 = k then some v else alookup rest k

/-- Lookup among the fields of a JSON object. -/
def fieldsGet (fs : List (String × JVal)) (k : String) : Option JVal :=
  alookup fs k

/-- Python `d.get(k, default)`; on a non-dict receiver the attribute access
`.get` raises `AttributeError`. -/
def pyGetE (o : JVal) (k : String) (d : JVal) : Except PyError JVal :=
  match o with
  | .obj fs => .ok ((fieldsGet fs k).getD d)
  | _ => .error (.attributeError "get")

/-- Python `d[k]`: `KeyError` when the key is absent, `TypeError` when the
receiver is not subscriptable by a string key. -/
def getItem (o : JVal) (k : String) : Except PyError JVal :=
  match o with
  | .obj fs =>
    match fieldsGet fs k with
    | some v => .ok v
    | none => .error (.keyError k)
  | _ => .error (.typeError "subscript")

/-- Python truthiness of a JSON value (`if not cid`, `if not msg`). -/
def jtruthy : JVal → Bool
  | .null => false
  | .bool b => b
  | .num n => if n = 0 then false else true
  | .str s => if s = "" then false else true
  | .arr [] => false
  | .arr (_ :: _) => true
  | .obj [] => false
  | .obj (_ :: _) => true

/-- Python `str()` of a JSON value as interpolated by the f-strings of
`serena_server.py`.  The claims only ever interpolate scalars; the repr of
containers is abstracted to a fixed tag. -/
def pyStr : JVal → String
  | .str s => s
  | .num n => toString n
  | .bool true => "True"
  | .bool false => "False"
  | .null => "None"
  | .arr _ => "<list>"
  | .obj _ => "<dict>"

/-- A message record as stored by `add_message` (dict with the fixed keys
`id`, `content`, `role`, `created_at`, `metadata`, in that order). -/
structure Message where
  id : String
  content : JVal
  role : JVal
  created_at : JVal
  metadata : JVal

/-- A conversation record as stored by `create_conversation` (dict with the
fixed keys `id`, `title`, `messages`, `created_at`, `updated_at`,
`metadata`, in that order). -/
structure Conversation where
  id : String
  title : JVal
  messages : List Message
  created_at : JVal
  updated_at : JVal
  metadata : JVal

/-- Serialization of a stored message back to JSON (field order as in the
source dict literal). -/
def Message.toJVal (m : Message) : JVal :=
  .obj [("id", .str m.id), ("content", m.content), ("role", m.role),
        ("created_at", m.created_at), ("metadata", m.metadata)]

/-- Serialization of a stored conversation back to JSON (field order as in
the source dict literal). -/
def Conversation.toJVal (c : Conversation) : JVal :=
  .obj [("id", .str c.id), ("title", c.title),
        ("messages", .arr (c.messages.map Message.toJVal)),
        ("created_at", c.created_at), ("updated_at", c.updated_at),
        ("metadata", c.metadata)]

/-- The module-level `conversations` dict: conversation id to record, in
insertion order. -/
abbrev Store := List (String × Conversation)

/-- Dict lookup in the conversation store. -/
def storeGet (s : Store) (k : String) : Option Conversation :=
  alookup s k

/-- Dict assignment `conversations[cid] = conv`: replace in place when the
key exists, append otherwise. -/
def storeSet : Store → String → Conversation → Store
  | [], k, c => [(k, c)]
  | (k0, c0) :: rest, k, c =>
    if k0 = k then (k, c) :: rest else (k0, c0) :: storeSet rest k c

/-- Dict deletion `del conversations[cid]`.  Keys are unique in a Python
dict, so removing every binding of `k` coincides with removing the one
binding. -/
def storeDel : Store → String → Store
  | [], _ => []
  | (k0, c0) :: rest, k =>
    if k0 = k then storeDel rest k else (k0, c0) :: storeDel rest k

/-- Process environment (`os.environ`). -/
abbrev Env := List (String × String)

/-- An HTTP request issued by an httpx client: method, absolute URL, JSON
body, headers, and query parameters (`params=` of `client.get`). -/
structure HttpRequest where
  method : String
  url : String
  payload : JVal
  headers : List (String × String)
  query : List (String × String)

/-- An upstream HTTP response: status code and parsed JSON body. -/
structure HttpResponse where
  status : Nat
  body : JVal

/-- The result of a proxy helper: the value returned (or the exception
raised), together with the trace of HTTP requests actually issued. -/
structure ForwardOut where
  result : Except PyError JVal
  requests : List HttpRequest

/-- `ROUTING_TABLE` of `serena_server.py`. -/
def ROUTING_TABLE : List (String × String) :=
  [("taskmaster", "https://taskmaster-relay.fly.dev/proxy/"),
   ("fileops", "https://fileops-relay.fly.dev/proxy/"),
   ("serena", "https://serena-relay.fly.dev/proxy/"),
   ("context7", "https://context7-relay.fly.dev/proxy/"),
   ("supabase", "https://supabase-relay.fly.dev/proxy/"),
   ("github", "https://serena-relay.fly.dev/proxy/github/"),
   ("fly", "https://serena-relay.fly.dev/proxy/flyio/")]

/-- Python `s.lstrip(c)` for a single strip character. -/
def lstripChar (c : Char) (s : String) : String :=
  ⟨s.data.dropWhile (fun a => a == c)⟩

/-- Python `s.rstrip(c)` for a single strip character. -/
def rstripChar (c : Char) (s : String) : String :=
  ⟨(s.data.reverse.dropWhile (fun a => a == c)).reverse⟩

/-- URL built by `forward_to_github`:
`ROUTING_TABLE["github"].rstrip("/") + "/" + path.lstrip("/")`. -/
def ghUrlOf (path : String) : String :=
  rstripChar '/' ((alookup ROUTING_TABLE "github").getD "") ++ "/" ++
    lstripChar '/' path

/-- URL built by `forward_to_fly`. -/
def flyUrlOf (path : String) : String :=
  rstripChar '/' ((alookup ROUTING_TABLE "fly").getD "") ++ "/" ++
    lstripChar '/' path

/-- `forward_to_github` of `serena_server.py`: reads `GITHUB_TOKEN` from the
environment (`os.environ[...]` raises `KeyError` when absent, before any
request is sent), issues one request through the relay, and returns
`r.json()` without inspecting the status code. -/
def forward_to_github (env : Env) (upstream : HttpRequest → HttpResponse)
    (path : String) (payload : JVal) (method : String) : ForwardOut :=
  match alookup env "GITHUB_TOKEN" with
  | none => ⟨.error (.keyError "GITHUB_TOKEN"), []⟩
  | some tok =>
    let req : HttpRequest :=
      ⟨method, ghUrlOf path, payload,
       [("Authorization", "Bearer " ++ tok),
        ("Accept", "application/vnd.github+json")], []⟩
    ⟨.ok (upstream req).body, [req]⟩

/-- `forward_to_fly` of `serena_server.py`: reads `FLY_AUTH_TOKEN` from the
environment (`KeyError` when absent), issues one request through the relay,
and returns `r.json()` without inspecting the status code. -/
def forward_to_fly (env : Env) (upstream : HttpRequest → HttpResponse)
    (path : String) (payload : JVal) (method : String) : ForwardOut :=
  match alookup env "FLY_AUTH_TOKEN" with
  | none => ⟨.error (.keyError "FLY_AUTH_TOKEN"), []⟩
  | some tok =>
    let req : HttpRequest :=
      ⟨method, flyUrlOf path, payload,
       [("Authorization", "Bearer " ++ tok),
        ("Content-Type", "application/json")], []⟩
    ⟨.ok (upstream req).body, [req]⟩

/-- The names imported at module level by `serena_server.py` (its `import`
statements).  `base64` is NOT among them, although `commit_files` mentions
it: evaluating `base64.b64encode` there raises `NameError` at runtime. -/
def serenaServerImports : List String :=
  ["os", "json", "uuid", "logging", "Dict", "Any", "Optional", "httpx",
   "FastAPI", "Request", "CORSMiddleware", "GZipMiddleware", "get_openapi",
   "lru_cache", "uvicorn"]

/-- Whether the name `base64` resolves inside `serena_server.py`. -/
def base64Imported : Bool := serenaServerImports.contains "base64"

/-- UTF-8 encoding of a Unicode code point (Python `str.encode()`), as a
list of byte values. -/
def utf8EncodeChar (n : Nat) : List Nat :=
  if n < 128 then [n]
  else if n < 2048 then [192 + n / 64, 128 + n % 64]
  else if n < 65536 then
    [224 + n / 4096, 128 + (n / 64) % 64, 128 + n % 64]
  else
    [240 + n / 262144, 128 + (n / 4096) % 64, 128 + (n / 64) % 64,
     128 + n % 64]

/-- UTF-8 encoding of a string as a list of byte values. -/
def utf8Encode (s : String) : List Nat :=
  (s.data.map (fun c => utf8EncodeChar c.toNat)).flatten

/-- The standard base64 alphabet. -/
def b64Alphabet : String :=
  "ABCDEFGHIJKLMNOPQRSTUVWXYZabcdefghijklmnopqrstuvwxyz0123456789+/"

/-- Character of the base64 alphabet at a 6-bit index. -/
def b64Char (n : Nat) : Char :=
  b64Alphabet.data.getD n (Char.ofNat 65)

/-- Base64 encoding of a byte list, three bytes at a time with `=` padding
(Python `base64.b64encode`). -/
def b64Chunks : List Nat → String
  | [] => ""
  | [a] =>
    let x := a * 65536
    String.mk [b64Char (x / 262144), b64Char ((x / 4096) % 64)] ++ "=="
  | [a, b] =>
    let x := a * 65536 + b * 256
    String.mk [b64Char (x / 262144), b64Char ((x / 4096) % 64),
               b64Char ((x / 64) % 64)] ++ "="
  | a :: b :: c :: rest =>
    let x := a * 65536 + b * 256 + c
    String.mk [b64Char (x / 262144), b64Char ((x / 4096) % 64),
               b64Char ((x / 64) % 64), b64Char (x % 64)] ++ b64Chunks rest

/-- `base64.b64encode(s.encode()).decode()` for a Lean-level string. -/
def b64encode (s : String) : String :=
  b64Chunks (utf8Encode s)

/-- The expression `base64.b64encode(f["content"].encode()).decode()` inside
`commit_files`.  Python evaluates the callee `base64.b64encode` first:
since `serena_server.py` never imports `base64`, this raises
`NameError("base64")` before the argument `f["content"].encode()` is even
evaluated.  The counterfactual branch (had the import been present)
subscripts `content` and encodes a string argument, raising
`AttributeError` on a non-string. -/
def pyB64Expr (f : JVal) : Except PyError String :=
  if base64Imported then
    match getItem f "content" with
    | .error e => .error e
    | .ok (.str s) => .ok (b64encode s)
    | .ok _ => .error (.attributeError "encode")
  else .error (.nameError "base64")

/-- The server state threaded through the dispatcher: the module-level
`conversations` dict plus the uuid-supply counter. -/
structure ServerState where
  conversations : Store
  nextId : Nat

/-- The outcome of one dispatcher call: the JSON result (or the escaping
exception), the updated server state, and the trace of upstream HTTP
requests issued during the call. -/
structure DispatchOut where
  result : Except PyError JVal
  state : ServerState
  requests : List HttpRequest

/-- Propagate an exception from a parameter access, keeping the state
unchanged and issuing no request; continue otherwise. -/
def stepE (st : ServerState) (x : Except PyError JVal)
    (k : JVal → DispatchOut) : DispatchOut :=
  match x with
  | .error e => ⟨.error e, st, []⟩
  | .ok v => k v

/-- The `{"error": "Conversation not found"}` return. -/
def notFoundOut (st : ServerState) : DispatchOut :=
  ⟨.ok (JVal.obj [("error", JVal.str "Conversation not found")]), st, []⟩

/-- One iteration of the `commit_files` loop, for file entry `f`:
evaluation order of the source is `params["repo"]`, `f["path"]` (the `path`
f-string), then the payload dict `f["message"]`,
`base64.b64encode(f["content"].encode()).decode()` (the `NameError` site,
which fires before `f["content"]` is read), `params["branch"]`, then the
PUT through `forward_to_github`.  Returns the appended result together
with the issued request; an exception aborts the whole handler. -/
def commitOne (env : Env) (upstream : HttpRequest → HttpResponse)
    (params f : JVal) : Except PyError (JVal × List HttpRequest) := do
  let repo ← getItem params "repo"
  let fpath ← getItem f "path"
  let message ← getItem f "message"
  let contentB64 ← pyB64Expr f
  let branch ← getItem params "branch"
  let payload := JVal.obj
    [("message", message), ("content", .str contentB64), ("branch", branch)]
  let path := "repos/" ++ pyStr repo ++ "/contents/" ++ pyStr fpath
  match forward_to_github env upstream path payload "PUT" with
  | ⟨.error e, _⟩ => .error e
  | ⟨.ok rj, reqs⟩ => .ok (rj, reqs)

/-- The `commit_files` iteration over `params["files"]`: sequential, an
exception aborts the loop and discards the results accumulated so far
(there is no per-file catch in the source). -/
def commitFilesLoop (env : Env) (upstream : HttpRequest → HttpResponse)
    (params : JVal) : List JVal → Except PyError (List JVal) × List HttpRequest
  | [] => (.ok [], [])
  | f :: rest =>
    match commitOne env upstream params f with
    | .error e => (.error e, [])
    | .ok (rj, reqs) =>
      match commitFilesLoop env upstream params rest with
      | (.error e, reqs2) => (.error e, reqs ++ reqs2)
      | (.ok rs, reqs2) => (.ok (rj :: rs), reqs ++ reqs2)

/-- `handle_mcp_request` of `serena_server.py` (`POST /mcp/{function_name}`
with the braces of the route pattern spelled in prose).  The `body`
argument is the outcome of `await request.json()`: `.error ()` stands for
`json.JSONDecodeError`, the only exception the dispatcher catches.  The
conversation-id membership tests follow Python semantics: the truthiness
guard short-circuits first where the source has `not cid or ...`, a
hashable non-key is simply not a member, and an unhashable value (list or
dict) raises `TypeError`. -/
def handle_mcp_request (uuid : Nat → String) (env : Env)
    (upstream : HttpRequest → HttpResponse) (function_name : String)
    (body : Except Unit JVal) (st : ServerState) : DispatchOut :=
  match body with
  | .error _ => ⟨.ok (JVal.obj [("error", JVal.str "Invalid JSON")]), st, []⟩
  | .ok params =>
    if function_name = "create_conversation" then
      stepE st (pyGetE params "title" (JVal.str "New Conversation")) fun titlev =>
      stepE st (pyGetE params "created_at" JVal.null) fun createdv =>
      stepE st (pyGetE params "updated_at" JVal.null) fun updatedv =>
      stepE st (pyGetE params "metadata" (JVal.obj [])) fun metav =>
        let cid := uuid st.nextId
        let conv : Conversation := ⟨cid, titlev, [], createdv, updatedv, metav⟩
        ⟨.ok (JVal.obj [("conversation_id", JVal.str cid),
                        ("success", JVal.bool true)]),
         ⟨storeSet st.conversations cid conv, st.nextId + 1⟩, []⟩
    else if function_name = "get_conversation" then
      stepE st (pyGetE params "conversation_id" JVal.null) fun cidv =>
        if jtruthy cidv = false then notFoundOut st
        else
          match cidv with
          | JVal.str k =>
            match storeGet st.conversations k with
            | some conv =>
              ⟨.ok (JVal.obj [("conversation", conv.toJVal)]), st, []⟩
            | none => notFoundOut st
          | JVal.arr _ => ⟨.error (PyError.typeError "unhashable"), st, []⟩
          | JVal.obj _ => ⟨.error (PyError.typeError "unhashable"), st, []⟩
          | _ => notFoundOut st
    else if function_name = "list_conversations" then
      ⟨.ok (JVal.obj [("conversations",
          JVal.arr (st.conversations.map (fun p => p.2.toJVal)))]), st, []⟩
    else if function_name = "add_message" then
      stepE st (pyGetE params "conversation_id" JVal.null) fun cidv =>
      stepE st (pyGetE params "message" JVal.null) fun msgv =>
        if jtruthy cidv = false then notFoundOut st
        else
          match cidv with
          | JVal.str k =>
            match storeGet st.conversations k with
            | none => notFoundOut st
            | some conv =>
              if jtruthy msgv = false then
                ⟨.ok (JVal.obj [("error", JVal.str "message param required")]),
                 st, []⟩
              else
                stepE st (pyGetE msgv "content" (JVal.str "")) fun contentv =>
                stepE st (pyGetE msgv "role" (JVal.str "user")) fun rolev =>
                stepE st (pyGetE msgv "created_at" JVal.null) fun mcreatedv =>
                stepE st (pyGetE msgv "metadata" (JVal.obj [])) fun mmetav =>
                  let mid := uuid st.nextId
                  let msgObj : Message := ⟨mid, contentv, rolev, mcreatedv, mmetav⟩
                  let conv2 : Conversation :=
                    { conv with
                      messages := conv.messages ++ [msgObj],
                      updated_at := msgObj.created_at }
                  ⟨.ok (JVal.obj [("message_id", JVal.str mid),
                                  ("success", JVal.bool true)]),
                   ⟨storeSet st.conversations k conv2, st.nextId + 1⟩, []⟩
          | JVal.arr _ => ⟨.error (PyError.typeError "unhashable"), st, []⟩
          | JVal.obj _ => ⟨.error (PyError.typeError "unhashable"), st, []⟩
          | _ => notFoundOut st
    else if function_name = "delete_conversation" then
      stepE st (pyGetE params "conversation_id" JVal.null) fun cidv =>
        match cidv with
        | JVal.str k =>
          if (storeGet st.conversations k).isSome then
            ⟨.ok (JVal.obj [("success", JVal.bool true)]),
             ⟨storeDel st.conversations k, st.nextId⟩, []⟩
          else notFoundOut st
        | JVal.arr _ => ⟨.error (PyError.typeError "unhashable"), st, []⟩
        | JVal.obj _ => ⟨.error (PyError.typeError "unhashable"), st, []⟩
        | _ => notFoundOut st
    else if function_name = "create_branch" then
      stepE st (getItem params "repo") fun repov =>
      stepE st (getItem params "new_branch") fun nbv =>
      stepE st (getItem params "base") fun basev =>
        let path := "repos/" ++ pyStr repov ++ "/git/refs"
        let payload := JVal.obj
          [("ref", JVal.str ("refs/heads/" ++ pyStr nbv)), ("sha", basev)]
        let fo := forward_to_github env upstream path payload "POST"
        ⟨fo.result, st, fo.requests⟩
    else if function_name = "commit_files" then
      stepE st (getItem params "files") fun filesv =>
        match filesv with
        | JVal.arr fs =>
          match commitFilesLoop env upstream params fs with
          | (.error e, reqs) => ⟨.error e, st, reqs⟩
          | (.ok rs, reqs) =>
            ⟨.ok (JVal.obj [("results", JVal.arr rs)]), st, reqs⟩
        | _ => ⟨.error (PyError.typeError "iteration"), st, []⟩
    else if function_name = "open_pr" then
      stepE st (getItem params "repo") fun repov =>
      stepE st (getItem params "title") fun titlev =>
      stepE st (getItem params "head") fun headv =>
      stepE st (getItem params "base") fun basev =>
      stepE st (pyGetE params "body" (JVal.str "")) fun bodyv =>
        let path := "repos/" ++ pyStr repov ++ "/pulls"
        let payload := JVal.obj
          [("title", titlev), ("head", headv), ("base", basev),
           ("body", bodyv)]
        let fo := forward_to_github env upstream path payload "POST"
        ⟨fo.result, st, fo.requests⟩
    else if function_name = "deploy_fly" then
      stepE st (getItem params "app") fun appv =>
      stepE st (getItem params "image_tag") fun imgv =>
        let path := "v1/apps/" ++ pyStr appv ++ "/deploys"
        let payload := JVal.obj [("image", imgv)]
        let fo := forward_to_fly env upstream path payload "POST"
        ⟨fo.result, st, fo.requests⟩
    else
      ⟨.ok (JVal.obj [("error",
          JVal.str ("Unknown function " ++ function_name))]), st, []⟩

/-! ## Embedding of `routers/github_utils.py` (`upsert_file`) -/

/-- `GITHUB_API` of `routers/github_utils.py`. -/
def GITHUB_API : String := "https://api.github.com"

/-- `_headers(token)` of `routers/github_utils.py`. -/
def ghHeaders (token : String) : List (String × String) :=
  [("Authorization", "token " ++ token),
   ("Accept", "application/vnd.github+json")]

/-- The contents URL built by `upsert_file`. -/
def ghContentsUrl (owner repo path : String) : String :=
  GITHUB_API ++ "/repos/" ++ owner ++ "/" ++ repo ++ "/contents/" ++ path

/-- The GET issued first by `upsert_file` (query string `ref=branch`). -/
def ghGetReq (owner repo path branch token : String) : HttpRequest :=
  ⟨"GET", ghContentsUrl owner repo path, JVal.null, ghHeaders token,
   [("ref", branch)]⟩

/-- The payload dict of the PUT in `upsert_file`: the `sha` key is always
present; its value is `None` unless the GET returned 200. -/
def upsertPayload (message content_b64 branch : String) (sha : JVal) : JVal :=
  JVal.obj [("message", .str message), ("content", .str content_b64),
            ("branch", .str branch), ("sha", sha)]

/-- The PUT issued second by `upsert_file`. -/
def ghPutReq (owner repo path token : String) (payload : JVal) : HttpRequest :=
  ⟨"PUT", ghContentsUrl owner repo path, payload, ghHeaders token, []⟩

/-- `upsert_file` of `routers/github_utils.py`: GET the file at `branch`;
`sha = None`, overwritten with `r.json()["sha"]` when the status is 200
(`KeyError` if that body lacks the key); then PUT
`{message, content, branch, sha}` and return the response body. -/
def upsert_file (upstream : HttpRequest → HttpResponse)
    (owner repo path branch message content_b64 token : String) : ForwardOut :=
  let getReq := ghGetReq owner repo path branch token
  let r := upstream getReq
  match (if r.status = 200 then getItem r.body "sha" else .ok JVal.null) with
  | .error e => ⟨.error e, [getReq]⟩
  | .ok sha =>
    let putReq := ghPutReq owner repo path token
      (upsertPayload message content_b64 branch sha)
    ⟨.ok (upstream putReq).body, [getReq, putReq]⟩

/-- Lookup among the fields of a JSON object value (`none` on non-objects);
used to state what a payload maps a key to. -/
def JVal.getOpt : JVal → String → Option JVal
  | .obj fs, k => fieldsGet fs k
  | _, _ => none

/-! ## Scenario definitions used by the claim statements -/

/-- The single POST request that `create_branch` issues (no GET precedes
it): target `repos/{repo}/git/refs` through the relay, payload
`{ref: refs/heads/{new_branch}, sha: params["base"]}` (braces in prose). -/
def createBranchReq (repo nb : String) (base : JVal) (tok : String) :
    HttpRequest :=
  ⟨"POST", ghUrlOf ("repos/" ++ repo ++ "/git/refs"),
   JVal.obj [("ref", JVal.str ("refs/heads/" ++ nb)), ("sha", base)],
   [("Authorization", "Bearer " ++ tok),
    ("Accept", "application/vnd.github+json")], []⟩

/-- The `add_message` parameter object for a given conversation id and
message payload. -/
def addMsgParams (cid : String) (m : JVal) : JVal :=
  JVal.obj [("conversation_id", JVal.str cid), ("message", m)]

/-- An upstream oracle for scenarios that never reach the network (the
conversation handlers ignore it). -/
def dummyUpstream : HttpRequest → HttpResponse :=
  fun _ => ⟨200, JVal.null⟩

/-- Repeated `add_message` calls for one conversation id, threading the
server state (the environment and upstream are irrelevant to this
handler). -/
def addMessages (uuid : Nat → String) (k : String) :
    List (List (String × JVal)) → ServerState → ServerState
  | [], st => st
  | fs :: rest, st =>
    addMessages uuid k rest
      (handle_mcp_request uuid [] dummyUpstream "add_message"
        (.ok (addMsgParams k (JVal.obj fs))) st).state

/-- The message record `add_message` stores for payload fields `fs` under
fresh id `mid` (defaults as in the source dict literal). -/
def mkMsgObj (mid : String) (fs : List (String × JVal)) : Message :=
  ⟨mid, (fieldsGet fs "content").getD (JVal.str ""),
   (fieldsGet fs "role").getD (JVal.str "user"),
   (fieldsGet fs "created_at").getD JVal.null,
   (fieldsGet fs "metadata").getD (JVal.obj [])⟩

/-- The message records produced by appending the given payloads in order,
consuming uuid-supply indices from `n` upward. -/
def buildMsgs (uuid : Nat → String) (n : Nat) :
    List (List (String × JVal)) → List Message
  | [] => []
  | fs :: rest => mkMsgObj (uuid n) fs :: buildMsgs uuid (n + 1) rest

/-- The `updated_at` value after appending `ms`: unchanged when nothing was
appended, else the `created_at` of the last appended message. -/
def lastUpd (old : JVal) (ms : List Message) : JVal :=
  match ms.getLast? with
  | none => old
  | some m => m.created_at

/-- The conversation record `create_conversation` stores for parameter
fields `fs` under fresh id `cid` (defaults as in the source dict
literal). -/
def mkConvObj (cid : String) (fs : List (String × JVal)) : Conversation :=
  ⟨cid, (fieldsGet fs "title").getD (JVal.str "New Conversation"), [],
   (fieldsGet fs "created_at").getD JVal.null,
   (fieldsGet fs "updated_at").getD JVal.null,
   (fieldsGet fs "metadata").getD (JVal.obj [])⟩

/-! ## Concrete inputs for counterexamples and witnesses -/

/-- A concrete uuid4 supply. -/
def exUuid : Nat → String := fun n => "id" ++ toString n

/-- An environment holding both bearer tokens. -/
def exEnv : Env := [("GITHUB_TOKEN", "t"), ("FLY_AUTH_TOKEN", "ft")]

/-- The empty server state. -/
def exState : ServerState := ⟨[], 0⟩

/-- An upstream that answers every request with HTTP 500 and a JSON error
body. -/
def exUpstream500 : HttpRequest → HttpResponse :=
  fun _ => ⟨500, JVal.obj [("message", JVal.str "boom")]⟩

/-- An upstream that answers every request with HTTP 201 (ref created). -/
def exUpstream201 : HttpRequest → HttpResponse :=
  fun _ => ⟨201, JVal.obj [("ref", JVal.str "refs/heads/b")]⟩

/-- An upstream that answers every request with HTTP 422 (ref already
exists). -/
def exUpstream422 : HttpRequest → HttpResponse :=
  fun _ => ⟨422, JVal.obj [("message", JVal.str "Reference already exists")]⟩

/-- An upstream whose GET answers 404 (file absent) and whose writes answer
201. -/
def exUpstream404 : HttpRequest → HttpResponse :=
  fun r =>
    if r.method = "GET" then ⟨404, JVal.obj [("message", JVal.str "Not Found")]⟩
    else ⟨201, JVal.obj [("ok", JVal.bool true)]⟩

/-- An upstream whose GET answers 200 with a `sha` field and whose writes
answer 200. -/
def exUpstream200 : HttpRequest → HttpResponse :=
  fun r =>
    if r.method = "GET" then ⟨200, JVal.obj [("sha", JVal.str "abc123")]⟩
    else ⟨200, JVal.obj [("ok", JVal.bool true)]⟩

/-- The complete `create_branch` parameter fields. -/
def exBranchFields : List (String × JVal) :=
  [("repo", JVal.str "o/r"), ("new_branch", JVal.str "b"),
   ("base", JVal.str "sha0")]

/-- The complete `create_branch` parameter object. -/
def exBranchParams : JVal := JVal.obj exBranchFields

/-- A `commit_files` parameter object with three complete file entries. -/
def exCommitParams : JVal :=
  JVal.obj [("repo", JVal.str "o/r"), ("branch", JVal.str "main"),
    ("files", JVal.arr
      [JVal.obj [("path", JVal.str "a.txt"), ("content", JVal.str "A"),
                 ("message", JVal.str "m1")],
       JVal.obj [("path", JVal.str "b.txt"), ("content", JVal.str "B"),
                 ("message", JVal.str "m2")],
       JVal.obj [("path", JVal.str "c.txt"), ("content", JVal.str "C"),
                 ("message", JVal.str "m3")]])]

/-- A complete `deploy_fly` parameter object. -/
def exDeployParams : JVal :=
  JVal.obj [("app", JVal.str "myapp"), ("image_tag", JVal.str "img:1")]

/-- A stored conversation with no messages. -/
def exConv : Conversation :=
  ⟨"c1", JVal.str "T", [], JVal.null, JVal.null, JVal.obj []⟩

/-- A server state whose store holds `exConv` under id `c1`. -/
def exStState : ServerState := ⟨[("c1", exConv)], 0⟩

/-- Two well-formed message payloads with explicit timestamps. -/
def exMsgs : List (List (String × JVal)) :=
  [[("content", JVal.str "hi"), ("created_at", JVal.str "t1")],
   [("content", JVal.str "yo"), ("created_at", JVal.str "t2")]]

/-! ## Store lemmas -/

/-- Looking up a key right after assigning it yields the assigned record. -/
theorem storeGet_storeSet_self (s : Store) (k : String) (c : Conversation) :
    storeGet (storeSet s k c) k = some c := by
  induction s with
  | nil => simp [storeGet, storeSet, alookup]
  | cons p rest ih =>
    by_cases h : p.1 = k
    · simp [storeGet, storeSet, alookup, h]
    · simpa [storeGet, storeSet, alookup, h] using ih

/-- Looking up a key right after deleting it yields nothing. -/
theorem storeGet_storeDel_self (s : Store) (k : String) :
    storeGet (storeDel s k) k = none := by
  induction s with
  | nil => simp [storeGet, storeDel, alookup]
  | cons p rest ih =>
    by_cases h : p.1 = k
    · simpa [storeGet, storeDel, alookup, h] using ih
    · simpa [storeGet, storeDel, alookup, h] using ih

/-! ## The effect of one successful `add_message` call -/

/-- A single `add_message` call with a truthy conversation id that is in the
store and a non-empty message object appends one message record built from
the payload (with defaults), refreshes `updated_at` to that record's
`created_at`, and returns the fresh message id with a success marker. -/
theorem add_message_step (uuid : Nat → String) (env : Env)
    (up : HttpRequest → HttpResponse) (st : ServerState) (k : String)
    (conv : Conversation) (fs : List (String × JVal))
    (hk : k ≠ "") (h : storeGet st.conversations k = some conv)
    (hfs : fs ≠ []) :
    handle_mcp_request uuid env up "add_message"
        (.ok (addMsgParams k (JVal.obj fs))) st =
      ⟨.ok (JVal.obj [("message_id", JVal.str (uuid st.nextId)),
                      ("success", JVal.bool true)]),
       ⟨storeSet st.conversations k
          { conv with
            messages := conv.messages ++ [mkMsgObj (uuid st.nextId) fs],
            updated_at := (fieldsGet fs "created_at").getD JVal.null },
        st.nextId + 1⟩, []⟩ := by
  cases fs with
  | nil => exact absurd rfl hfs
  | cons hd tl =>
    simp [handle_mcp_request, addMsgParams, stepE, pyGetE, fieldsGet, alookup,
      jtruthy, hk, h, mkMsgObj]

/-- Appending to the front of a message list shifts which message is
"last appended": the head's timestamp is the fallback. -/
theorem lastUpd_cons (old : JVal) (m : Message) (ms : List Message) :
    lastUpd old (m :: ms) = lastUpd m.created_at ms := by
  cases ms with
  | nil => simp [lastUpd]
  | cons b t =>
    have hs : (b :: t).getLast?.isSome := by
      rw [List.getLast?_isSome]
      simp
    simp only [lastUpd, List.getLast?_cons_cons]
    cases hg : (b :: t).getLast? with
    | none => rw [hg] at hs; simp at hs
    | some m2 => simp [hg]

/-- One message record is built per appended payload. -/
theorem buildMsgs_length (uuid : Nat → String) (n : Nat)
    (l : List (List (String × JVal))) :
    (buildMsgs uuid n l).length = l.length := by
  induction l generalizing n with
  | nil => simp [buildMsgs]
  | cons fs rest ih => simp [buildMsgs, ih]

/-- The `updated_at` value after a non-empty append sequence is the
`created_at` of the last payload (with the source's `None` default). -/
theorem buildMsgs_lastUpd (uuid : Nat → String) (x : JVal) (n : Nat)
    (p : List (List (String × JVal))) (fsl : List (String × JVal))
    (h : p.getLast? = some fsl) :
    lastUpd x (buildMsgs uuid n p) = (fieldsGet fsl "created_at").getD JVal.null := by
  induction p generalizing x n with
  | nil => simp at h
  | cons a t ih =>
    cases t with
    | nil =>
      simp at h
      subst h
      simp [buildMsgs, lastUpd, mkMsgObj]
    | cons b t2 =>
      rw [List.getLast?_cons_cons] at h
      rw [buildMsgs, lastUpd_cons]
      exact ih _ _ h

/-- Folding a sequence of successful `add_message` calls over the state
appends exactly the built message records to the targeted conversation and
sets `updated_at` to the last appended record's timestamp. -/
theorem addMessages_spec (uuid : Nat → String) (k : String) (hk : k ≠ "")
    (msgs : List (List (String × JVal))) (hm : ∀ fs ∈ msgs, fs ≠ []) :
    ∀ (st : ServerState) (conv : Conversation),
      storeGet st.conversations k = some conv →
      storeGet (addMessages uuid k msgs st).conversations k =
        some { conv with
          messages := conv.messages ++ buildMsgs uuid st.nextId msgs,
          updated_at := lastUpd conv.updated_at (buildMsgs uuid st.nextId msgs) } := by
  induction msgs with
  | nil =>
    intro st conv h
    simpa [addMessages, buildMsgs, lastUpd] using h
  | cons fs rest ih =>
    intro st conv h
    have hfs : fs ≠ [] := hm fs (by simp)
    have hrest : ∀ g ∈ rest, g ≠ [] := fun g hg => hm g (by simp [hg])
    rw [addMessages, add_message_step uuid [] dummyUpstream st k conv fs hk h hfs]
    have h1 : storeGet (storeSet st.conversations k
        { conv with
          messages := conv.messages ++ [mkMsgObj (uuid st.nextId) fs],
          updated_at := (fieldsGet fs "created_at").getD JVal.null }) k =
        some { conv with
          messages := conv.messages ++ [mkMsgObj (uuid st.nextId) fs],
          updated_at := (fieldsGet fs "created_at").getD JVal.null } :=
      storeGet_storeSet_self _ _ _
    have h2 := ih hrest ⟨storeSet st.conversations k
        { conv with
          messages := conv.messages ++ [mkMsgObj (uuid st.nextId) fs],
          updated_at := (fieldsGet fs "created_at").getD JVal.null },
      st.nextId + 1⟩
      { conv with
        messages := conv.messages ++ [mkMsgObj (uuid st.nextId) fs],
        updated_at := (fieldsGet fs "created_at").getD JVal.null } h1
    rw [h2]
    simp [buildMsgs, lastUpd_cons, mkMsgObj, List.append_assoc]

/-! ## Claim theorems -/

/-- C1 (counterexample): at a fully specified `create_branch` call with the
token present, the handler issues exactly one request, a POST — no GET to
the ref endpoint ever happens — and even an HTTP 500 upstream response body
is returned as the ordinary result, not an UpstreamError. -/
theorem c1_counterexample :
    ((handle_mcp_request exUuid exEnv exUpstream500 "create_branch"
        (.ok exBranchParams) exState).requests.map (fun r => r.method)) = ["POST"]
  ∧ (handle_mcp_request exUuid exEnv exUpstream500 "create_branch"
        (.ok exBranchParams) exState).result =
      .ok (JVal.obj [("message", JVal.str "boom")]) := ⟨rfl, rfl⟩

/-- C1 (amended): `create_branch` performs no GET resolution of `base`; it
issues exactly one POST to the refs endpoint with payload
`ref = refs/heads/ + new_branch` and `sha = params base`, and returns the
upstream JSON body verbatim whatever the status code — so two calls with
identical parameters issue the identical request and each returns its own
upstream body (in particular a 201 and a then 422 response are both
returned as ordinary results). -/
theorem c1_create_branch_post_only (uuid : Nat → String) (env : Env)
    (tok : String) (up1 up2 : HttpRequest → HttpResponse) (st : ServerState)
    (fs : List (String × JVal)) (repo nb : String) (base : JVal)
    (htok : alookup env "GITHUB_TOKEN" = some tok)
    (hrepo : fieldsGet fs "repo" = some (JVal.str repo))
    (hnb : fieldsGet fs "new_branch" = some (JVal.str nb))
    (hbase : fieldsGet fs "base" = some base) :
    (createBranchReq repo nb base tok).method = "POST"
  ∧ (createBranchReq repo nb base tok).payload =
      JVal.obj [("ref", JVal.str ("refs/heads/" ++ nb)), ("sha", base)]
  ∧ handle_mcp_request uuid env up1 "create_branch" (.ok (JVal.obj fs)) st =
      ⟨.ok (up1 (createBranchReq repo nb base tok)).body, st,
       [createBranchReq repo nb base tok]⟩
  ∧ handle_mcp_request uuid env up2 "create_branch" (.ok (JVal.obj fs)) st =
      ⟨.ok (up2 (createBranchReq repo nb base tok)).body, st,
       [createBranchReq repo nb base tok]⟩ := by
  refine ⟨rfl, rfl, ?_, ?_⟩
  · simp [handle_mcp_request, stepE, getItem, hrepo, hnb, hbase,
      forward_to_github, htok, createBranchReq, pyStr]
  · simp [handle_mcp_request, stepE, getItem, hrepo, hnb, hbase,
      forward_to_github, htok, createBranchReq, pyStr]

/-- Witness for `c1_create_branch_post_only` at concrete inputs: the same
single POST is issued on both calls, one answered 201 and one 422, and each
response body comes back as the ordinary result. -/
theorem c1_witness :
    (createBranchReq "o/r" "b" (JVal.str "sha0") "t").method = "POST"
  ∧ (createBranchReq "o/r" "b" (JVal.str "sha0") "t").payload =
      JVal.obj [("ref", JVal.str "refs/heads/b"), ("sha", JVal.str "sha0")]
  ∧ handle_mcp_request exUuid exEnv exUpstream201 "create_branch"
        (.ok (JVal.obj exBranchFields)) exState =
      ⟨.ok (exUpstream201 (createBranchReq "o/r" "b" (JVal.str "sha0") "t")).body,
       exState, [createBranchReq "o/r" "b" (JVal.str "sha0") "t"]⟩
  ∧ handle_mcp_request exUuid exEnv exUpstream422 "create_branch"
        (.ok (JVal.obj exBranchFields)) exState =
      ⟨.ok (exUpstream422 (createBranchReq "o/r" "b" (JVal.str "sha0") "t")).body,
       exState, [createBranchReq "o/r" "b" (JVal.str "sha0") "t"]⟩ :=
  c1_create_branch_post_only exUuid exEnv "t" exUpstream201 exUpstream422
    exState exBranchFields "o/r" "b" (JVal.str "sha0") rfl rfl rfl rfl

/-- C2: `commit_files` with three complete file entries and the token
present raises `NameError` on the unimported name `base64` before issuing
any upstream request, so no per-file results are produced at all — the
request faults instead of returning three results. -/
theorem c2_commit_files_name_error :
    (handle_mcp_request exUuid exEnv exUpstream500 "commit_files"
        (.ok exCommitParams) exState).result = .error (.nameError "base64")
  ∧ (handle_mcp_request exUuid exEnv exUpstream500 "commit_files"
        (.ok exCommitParams) exState).requests = [] := ⟨rfl, rfl⟩

/-- C3 (counterexample): `create_branch` with an empty parameter object
raises an uncaught `KeyError` for the missing `repo` parameter — a fault,
not an error object, and not caught at the dispatcher boundary. -/
theorem c3_counterexample :
    (handle_mcp_request exUuid exEnv exUpstream500 "create_branch"
        (.ok (JVal.obj [])) exState).result = .error (.keyError "repo") := rfl

/-- C3 (amended): the dispatcher boundary catches only JSON-decode failure;
the conversation handlers validate their parameters and return error
objects describing the problem (a missing or absent conversation id yields
the NotFound object from each of the three id-taking handlers, a present
conversation with a missing `message` yields the describing error object),
while each proxy handler accesses its required parameters by subscript so
the first missing one in evaluation order raises an uncaught `KeyError`
naming that parameter: `repo`, `new_branch`, `base` for `create_branch`;
`files`, then (once there is at least one file entry) `repo` for
`commit_files` (a missing `branch` is preempted by the `base64`
`NameError`); `repo`, `title`, `head`, `base` for `open_pr`; `app`,
`image_tag` for `deploy_fly`. -/
theorem c3_validation_split (uuid : Nat → String) (env : Env)
    (up : HttpRequest → HttpResponse) (st : ServerState) :
    (∀ fn, handle_mcp_request uuid env up fn (.error ()) st =
      ⟨.ok (JVal.obj [("error", JVal.str "Invalid JSON")]), st, []⟩)
  ∧ (∀ fs, fieldsGet fs "conversation_id" = none →
      handle_mcp_request uuid env up "get_conversation"
          (.ok (JVal.obj fs)) st = notFoundOut st
      ∧ handle_mcp_request uuid env up "add_message"
          (.ok (JVal.obj fs)) st = notFoundOut st
      ∧ handle_mcp_request uuid env up "delete_conversation"
          (.ok (JVal.obj fs)) st = notFoundOut st)
  ∧ (∀ k conv fs, k ≠ "" → storeGet st.conversations k = some conv →
      fieldsGet fs "conversation_id" = some (JVal.str k) →
      fieldsGet fs "message" = none →
      handle_mcp_request uuid env up "add_message" (.ok (JVal.obj fs)) st =
        ⟨.ok (JVal.obj [("error", JVal.str "message param required")]), st, []⟩)
  ∧ (∀ fs, fieldsGet fs "repo" = none →
      handle_mcp_request uuid env up "create_branch" (.ok (JVal.obj fs)) st =
        ⟨.error (.keyError "repo"), st, []⟩)
  ∧ (∀ fs repov, fieldsGet fs "repo" = some repov →
      fieldsGet fs "new_branch" = none →
      handle_mcp_request uuid env up "create_branch" (.ok (JVal.obj fs)) st =
        ⟨.error (.keyError "new_branch"), st, []⟩)
  ∧ (∀ fs repov nbv, fieldsGet fs "repo" = some repov →
      fieldsGet fs "new_branch" = some nbv →
      fieldsGet fs "base" = none →
      handle_mcp_request uuid env up "create_branch" (.ok (JVal.obj fs)) st =
        ⟨.error (.keyError "base"), st, []⟩)
  ∧ (∀ fs, fieldsGet fs "files" = none →
      handle_mcp_request uuid env up "commit_files" (.ok (JVal.obj fs)) st =
        ⟨.error (.keyError "files"), st, []⟩)
  ∧ (∀ fs f rest, fieldsGet fs "files" = some (JVal.arr (f :: rest)) →
      fieldsGet fs "repo" = none →
      handle_mcp_request uuid env up "commit_files" (.ok (JVal.obj fs)) st =
        ⟨.error (.keyError "repo"), st, []⟩)
  ∧ (∀ fs, fieldsGet fs "repo" = none →
      handle_mcp_request uuid env up "open_pr" (.ok (JVal.obj fs)) st =
        ⟨.error (.keyError "repo"), st, []⟩)
  ∧ (∀ fs repov, fieldsGet fs "repo" = some repov →
      fieldsGet fs "title" = none →
      handle_mcp_request uuid env up "open_pr" (.ok (JVal.obj fs)) st =
        ⟨.error (.keyError "title"), st, []⟩)
  ∧ (∀ fs repov titlev, fieldsGet fs "repo" = some repov →
      fieldsGet fs "title" = some titlev →
      fieldsGet fs "head" = none →
      handle_mcp_request uuid env up "open_pr" (.ok (JVal.obj fs)) st =
        ⟨.error (.keyError "head"), st, []⟩)
  ∧ (∀ fs repov titlev headv, fieldsGet fs "repo" = some repov →
      fieldsGet fs "title" = some titlev →
      fieldsGet fs "head" = some headv →
      fieldsGet fs "base" = none →
      handle_mcp_request uuid env up "open_pr" (.ok (JVal.obj fs)) st =
        ⟨.error (.keyError "base"), st, []⟩)
  ∧ (∀ fs, fieldsGet fs "app" = none →
      handle_mcp_request uuid env up "deploy_fly" (.ok (JVal.obj fs)) st =
        ⟨.error (.keyError "app"), st, []⟩)
  ∧ (∀ fs appv, fieldsGet fs "app" = some appv →
      fieldsGet fs "image_tag" = none →
      handle_mcp_request uuid env up "deploy_fly" (.ok (JVal.obj fs)) st =
        ⟨.error (.keyError "image_tag"), st, []⟩) := by
  refine ⟨fun fn => rfl, ?_, ?_, ?_, ?_, ?_, ?_, ?_, ?_, ?_, ?_, ?_, ?_, ?_⟩
  · intro fs h
    refine ⟨?_, ?_, ?_⟩
    · simp [handle_mcp_request, stepE, pyGetE, jtruthy, h]
    · simp [handle_mcp_request, stepE, pyGetE, jtruthy, h]
    · simp [handle_mcp_request, stepE, pyGetE, h]
  · intro k conv fs hk h hcid hmsg
    simp [handle_mcp_request, stepE, pyGetE, jtruthy, hk, h, hcid, hmsg]
  · intro fs h
    simp [handle_mcp_request, stepE, getItem, h]
  · intro fs repov h1 h2
    simp [handle_mcp_request, stepE, getItem, h1, h2]
  · intro fs repov nbv h1 h2 h3
    simp [handle_mcp_request, stepE, getItem, h1, h2, h3]
  · intro fs h
    simp [handle_mcp_request, stepE, getItem, h]
  · intro fs f rest h1 h2
    simp [handle_mcp_request, stepE, getItem, h1, h2, commitFilesLoop,
      commitOne, Bind.bind, Except.bind]
  · intro fs h
    simp [handle_mcp_request, stepE, getItem, h]
  · intro fs repov h1 h2
    simp [handle_mcp_request, stepE, getItem, h1, h2]
  · intro fs repov titlev h1 h2 h3
    simp [handle_mcp_request, stepE, getItem, h1, h2, h3]
  · intro fs repov titlev headv h1 h2 h3 h4
    simp [handle_mcp_request, stepE, getItem, h1, h2, h3, h4]
  · intro fs h
    simp [handle_mcp_request, stepE, getItem, h]
  · intro fs appv h1 h2
    simp [handle_mcp_request, stepE, getItem, h1, h2]

/-- Witness for `c3_validation_split`: each component at a concrete store
and concrete parameter objects, one per handler and missing parameter. -/
theorem c3_witness :
    handle_mcp_request exUuid exEnv exUpstream500 "get_conversation"
        (.error ()) exStState =
      ⟨.ok (JVal.obj [("error", JVal.str "Invalid JSON")]), exStState, []⟩
  ∧ handle_mcp_request exUuid exEnv exUpstream500 "get_conversation"
        (.ok (JVal.obj [])) exStState = notFoundOut exStState
  ∧ handle_mcp_request exUuid exEnv exUpstream500 "add_message"
        (.ok (JVal.obj [])) exStState = notFoundOut exStState
  ∧ handle_mcp_request exUuid exEnv exUpstream500 "delete_conversation"
        (.ok (JVal.obj [])) exStState = notFoundOut exStState
  ∧ handle_mcp_request exUuid exEnv exUpstream500 "add_message"
        (.ok (JVal.obj [("conversation_id", JVal.str "c1")])) exStState =
      ⟨.ok (JVal.obj [("error", JVal.str "message param required")]),
       exStState, []⟩
  ∧ handle_mcp_request exUuid exEnv exUpstream500 "create_branch"
        (.ok (JVal.obj [])) exStState = ⟨.error (.keyError "repo"), exStState, []⟩
  ∧ handle_mcp_request exUuid exEnv exUpstream500 "create_branch"
        (.ok (JVal.obj [("repo", JVal.str "o/r")])) exStState =
      ⟨.error (.keyError "new_branch"), exStState, []⟩
  ∧ handle_mcp_request exUuid exEnv exUpstream500 "create_branch"
        (.ok (JVal.obj [("repo", JVal.str "o/r"),
                        ("new_branch", JVal.str "b")])) exStState =
      ⟨.error (.keyError "base"), exStState, []⟩
  ∧ handle_mcp_request exUuid exEnv exUpstream500 "commit_files"
        (.ok (JVal.obj [])) exStState = ⟨.error (.keyError "files"), exStState, []⟩
  ∧ handle_mcp_request exUuid exEnv exUpstream500 "commit_files"
        (.ok (JVal.obj [("files", JVal.arr [JVal.obj [("path", JVal.str "a"),
            ("message", JVal.str "m"), ("content", JVal.str "x")]])]))
        exStState =
      ⟨.error (.keyError "repo"), exStState, []⟩
  ∧ handle_mcp_request exUuid exEnv exUpstream500 "open_pr"
        (.ok (JVal.obj [])) exStState = ⟨.error (.keyError "repo"), exStState, []⟩
  ∧ handle_mcp_request exUuid exEnv exUpstream500 "open_pr"
        (.ok (JVal.obj [("repo", JVal.str "o/r")])) exStState =
      ⟨.error (.keyError "title"), exStState, []⟩
  ∧ handle_mcp_request exUuid exEnv exUpstream500 "open_pr"
        (.ok (JVal.obj [("repo", JVal.str "o/r"),
                        ("title", JVal.str "T")])) exStState =
      ⟨.error (.keyError "head"), exStState, []⟩
  ∧ handle_mcp_request exUuid exEnv exUpstream500 "open_pr"
        (.ok (JVal.obj [("repo", JVal.str "o/r"), ("title", JVal.str "T"),
                        ("head", JVal.str "h")])) exStState =
      ⟨.error (.keyError "base"), exStState, []⟩
  ∧ handle_mcp_request exUuid exEnv exUpstream500 "deploy_fly"
        (.ok (JVal.obj [])) exStState = ⟨.error (.keyError "app"), exStState, []⟩
  ∧ handle_mcp_request exUuid exEnv exUpstream500 "deploy_fly"
        (.ok (JVal.obj [("app", JVal.str "myapp")])) exStState =
      ⟨.error (.keyError "image_tag"), exStState, []⟩ := by
  obtain ⟨h1, h2, h3, h4, h5, h6, h7, h8, h9, h10, h11, h12, h13, h14⟩ :=
    c3_validation_split exUuid exEnv exUpstream500 exStState
  exact ⟨h1 "get_conversation", (h2 [] rfl).1, (h2 [] rfl).2.1, (h2 [] rfl).2.2,
    h3 "c1" exConv _ (by decide) rfl rfl rfl,
    h4 [] rfl, h5 _ _ rfl rfl, h6 _ _ _ rfl rfl rfl,
    h7 [] rfl, h8 _ _ _ rfl rfl,
    h9 [] rfl, h10 _ _ rfl rfl, h11 _ _ _ rfl rfl rfl,
    h12 _ _ _ _ rfl rfl rfl rfl,
    h13 [] rfl, h14 _ _ rfl rfl⟩

/-- C4: with the respective bearer-token variable absent from the
environment, a fully parameterised `create_branch` (GitHub proxy) and
`deploy_fly` (Fly proxy) call each fault with an uncaught `KeyError` for
the token name — no MissingCredential error object is produced. -/
theorem c4_missing_token_keyerror :
    (handle_mcp_request exUuid [] exUpstream500 "create_branch"
        (.ok exBranchParams) exState).result = .error (.keyError "GITHUB_TOKEN")
  ∧ (handle_mcp_request exUuid [] exUpstream500 "deploy_fly"
        (.ok exDeployParams) exState).result =
      .error (.keyError "FLY_AUTH_TOKEN") := ⟨rfl, rfl⟩

/-- C5 (counterexample): with a GET answering 404, the PUT issued by
`upsert_file` carries the `sha` key mapped to `null` — the revision marker
is sent with a null value, not omitted from the payload. -/
theorem c5_counterexample :
    ((upsert_file exUpstream404 "o" "r" "f.txt" "main" "m" "QQ==" "tk").requests.map
        (fun r => r.payload.getOpt "sha")) = [none, some JVal.null] := rfl

/-- C5 (amended): `upsert_file` performs the GET first; when the GET
returns 200 the fetched `sha` value is the value of the `sha` key of the
PUT payload, and when the GET does not return 200 the `sha` key is still
present in the PUT payload, mapped to `null` (it is not omitted). -/
theorem c5_upsert_sha_null (upstream : HttpRequest → HttpResponse)
    (owner repo path branch message content_b64 token : String) :
    ((upstream (ghGetReq owner repo path branch token)).status ≠ 200 →
      upsert_file upstream owner repo path branch message content_b64 token =
        ⟨.ok (upstream (ghPutReq owner repo path token
            (upsertPayload message content_b64 branch JVal.null))).body,
         [ghGetReq owner repo path branch token,
          ghPutReq owner repo path token
            (upsertPayload message content_b64 branch JVal.null)]⟩
      ∧ (upsertPayload message content_b64 branch JVal.null).getOpt "sha" =
          some JVal.null)
  ∧ (∀ sv, (upstream (ghGetReq owner repo path branch token)).status = 200 →
      getItem (upstream (ghGetReq owner repo path branch token)).body "sha" =
        .ok sv →
      upsert_file upstream owner repo path branch message content_b64 token =
        ⟨.ok (upstream (ghPutReq owner repo path token
            (upsertPayload message content_b64 branch sv))).body,
         [ghGetReq owner repo path branch token,
          ghPutReq owner repo path token
            (upsertPayload message content_b64 branch sv)]⟩) := by
  constructor
  · intro h
    constructor
    · simp [upsert_file, h]
    · rfl
  · intro sv h hsha
    simp [upsert_file, h, hsha]

/-- Witness for `c5_upsert_sha_null`: a 404 GET leads to a PUT whose
payload maps `sha` to `null`; a 200 GET leads to a PUT carrying the fetched
`sha`. -/
theorem c5_witness :
    (upsert_file exUpstream404 "o" "r" "f.txt" "main" "m" "QQ==" "tk" =
        ⟨.ok (exUpstream404 (ghPutReq "o" "r" "f.txt" "tk"
            (upsertPayload "m" "QQ==" "main" JVal.null))).body,
         [ghGetReq "o" "r" "f.txt" "main" "tk",
          ghPutReq "o" "r" "f.txt" "tk"
            (upsertPayload "m" "QQ==" "main" JVal.null)]⟩
      ∧ (upsertPayload "m" "QQ==" "main" JVal.null).getOpt "sha" =
          some JVal.null)
  ∧ upsert_file exUpstream200 "o" "r" "f.txt" "main" "m" "QQ==" "tk" =
      ⟨.ok (exUpstream200 (ghPutReq "o" "r" "f.txt" "tk"
          (upsertPayload "m" "QQ==" "main" (JVal.str "abc123")))).body,
       [ghGetReq "o" "r" "f.txt" "main" "tk",
        ghPutReq "o" "r" "f.txt" "tk"
          (upsertPayload "m" "QQ==" "main" (JVal.str "abc123"))]⟩ :=
  ⟨(c5_upsert_sha_null exUpstream404 "o" "r" "f.txt" "main" "m" "QQ==" "tk").1
      (by decide),
   (c5_upsert_sha_null exUpstream200 "o" "r" "f.txt" "main" "m" "QQ==" "tk").2
      (JVal.str "abc123") (by decide) rfl⟩

/-- C6: starting from a stored conversation with no messages, appending any
prefix of a sequence of N non-empty message payloads via `add_message`
leaves the conversation holding exactly the records built from that prefix,
in append order and of matching length, with `updated_at` equal to the
`created_at` of the last appended message. -/
theorem c6_add_message_append (uuid : Nat → String) (st : ServerState)
    (k : String) (conv : Conversation) (msgs : List (List (String × JVal)))
    (hk : k ≠ "") (h : storeGet st.conversations k = some conv)
    (h0 : conv.messages = []) (hm : ∀ fs ∈ msgs, fs ≠ []) :
    ∀ p q, msgs = p ++ q →
      ∃ conv2, storeGet (addMessages uuid k p st).conversations k = some conv2
        ∧ conv2.messages = buildMsgs uuid st.nextId p
        ∧ conv2.messages.length = p.length
        ∧ ∀ fsl, p.getLast? = some fsl →
            conv2.updated_at = (fieldsGet fsl "created_at").getD JVal.null := by
  intro p q hpq
  have hmp : ∀ fs ∈ p, fs ≠ [] := fun fs hfs => hm fs (by simp [hpq, hfs])
  have hspec := addMessages_spec uuid k hk p hmp st conv h
  refine ⟨_, hspec, ?_, ?_, ?_⟩
  · simp [h0]
  · simp [h0, buildMsgs_length]
  · intro fsl hlast
    simp only []
    exact buildMsgs_lastUpd uuid conv.updated_at st.nextId p fsl hlast

/-- Witness for `c6_add_message_append`: appending two concrete messages to
a concrete empty conversation. -/
theorem c6_witness :
    ∃ conv2,
      storeGet (addMessages exUuid "c1" exMsgs exStState).conversations "c1" =
        some conv2
      ∧ conv2.messages = buildMsgs exUuid 0 exMsgs
      ∧ conv2.messages.length = exMsgs.length
      ∧ ∀ fsl, exMsgs.getLast? = some fsl →
          conv2.updated_at = (fieldsGet fsl "created_at").getD JVal.null :=
  c6_add_message_append exUuid exStState "c1" exConv exMsgs (by decide) rfl rfl
    (by simp [exMsgs]) exMsgs [] (by simp)

/-- C7: on an id absent from the store, `get_conversation`, `add_message`
(whatever the message payload) and `delete_conversation` each return the
NotFound error object with the state unchanged and never fault; on a
present id, `delete_conversation` succeeds and removes the record, after
which `get_conversation` and a second `delete_conversation` on the same id
both return the NotFound error object. -/
theorem c7_not_found (uuid : Nat → String) (env : Env)
    (up : HttpRequest → HttpResponse) (st : ServerState) (cid : String)
    (m : JVal) :
    (storeGet st.conversations cid = none →
      handle_mcp_request uuid env up "get_conversation"
          (.ok (JVal.obj [("conversation_id", JVal.str cid)])) st = notFoundOut st
      ∧ handle_mcp_request uuid env up "add_message"
          (.ok (addMsgParams cid m)) st = notFoundOut st
      ∧ handle_mcp_request uuid env up "delete_conversation"
          (.ok (JVal.obj [("conversation_id", JVal.str cid)])) st = notFoundOut st)
  ∧ (∀ conv, storeGet st.conversations cid = some conv →
      handle_mcp_request uuid env up "delete_conversation"
          (.ok (JVal.obj [("conversation_id", JVal.str cid)])) st =
        ⟨.ok (JVal.obj [("success", JVal.bool true)]),
         ⟨storeDel st.conversations cid, st.nextId⟩, []⟩
      ∧ handle_mcp_request uuid env up "get_conversation"
          (.ok (JVal.obj [("conversation_id", JVal.str cid)]))
          ⟨storeDel st.conversations cid, st.nextId⟩ =
        notFoundOut ⟨storeDel st.conversations cid, st.nextId⟩
      ∧ handle_mcp_request uuid env up "delete_conversation"
          (.ok (JVal.obj [("conversation_id", JVal.str cid)]))
          ⟨storeDel st.conversations cid, st.nextId⟩ =
        notFoundOut ⟨storeDel st.conversations cid, st.nextId⟩) := by
  constructor
  · intro h
    refine ⟨?_, ?_, ?_⟩
    · simp [handle_mcp_request, stepE, pyGetE, fieldsGet, alookup, jtruthy, h]
    · simp [handle_mcp_request, addMsgParams, stepE, pyGetE, fieldsGet, alookup,
        jtruthy, h]
    · simp [handle_mcp_request, stepE, pyGetE, fieldsGet, alookup, h]
  · intro conv h
    refine ⟨?_, ?_, ?_⟩
    · simp [handle_mcp_request, stepE, pyGetE, fieldsGet, alookup, h]
    · simp [handle_mcp_request, stepE, pyGetE, fieldsGet, alookup, jtruthy,
        storeGet_storeDel_self]
    · simp [handle_mcp_request, stepE, pyGetE, fieldsGet, alookup,
        storeGet_storeDel_self]

/-- Witness for `c7_not_found`: the unknown-id returns on an empty store,
and delete-then-get / double-delete on a concrete one-entry store. -/
theorem c7_witness :
    (handle_mcp_request exUuid exEnv exUpstream500 "get_conversation"
        (.ok (JVal.obj [("conversation_id", JVal.str "nope")])) exState =
      notFoundOut exState
    ∧ handle_mcp_request exUuid exEnv exUpstream500 "add_message"
        (.ok (addMsgParams "nope" JVal.null)) exState = notFoundOut exState
    ∧ handle_mcp_request exUuid exEnv exUpstream500 "delete_conversation"
        (.ok (JVal.obj [("conversation_id", JVal.str "nope")])) exState =
      notFoundOut exState)
  ∧ (handle_mcp_request exUuid exEnv exUpstream500 "delete_conversation"
        (.ok (JVal.obj [("conversation_id", JVal.str "c1")])) exStState =
      ⟨.ok (JVal.obj [("success", JVal.bool true)]),
       ⟨storeDel exStState.conversations "c1", exStState.nextId⟩, []⟩
    ∧ handle_mcp_request exUuid exEnv exUpstream500 "get_conversation"
        (.ok (JVal.obj [("conversation_id", JVal.str "c1")]))
        ⟨storeDel exStState.conversations "c1", exStState.nextId⟩ =
      notFoundOut ⟨storeDel exStState.conversations "c1", exStState.nextId⟩
    ∧ handle_mcp_request exUuid exEnv exUpstream500 "delete_conversation"
        (.ok (JVal.obj [("conversation_id", JVal.str "c1")]))
        ⟨storeDel exStState.conversations "c1", exStState.nextId⟩ =
      notFoundOut ⟨storeDel exStState.conversations "c1", exStState.nextId⟩) :=
  ⟨(c7_not_found exUuid exEnv exUpstream500 exState "nope" JVal.null).1 rfl,
   (c7_not_found exUuid exEnv exUpstream500 exStState "c1" JVal.null).2
     exConv rfl⟩

/-- C8: `create_conversation` on any parameter object succeeds, returning
the freshly generated id with the success marker and storing the record
built from the parameters; the stored record always has an empty message
sequence, and when no `title` parameter is supplied its title is the
default placeholder. -/
theorem c8_create_conversation (uuid : Nat → String) (env : Env)
    (up : HttpRequest → HttpResponse) (st : ServerState)
    (fs : List (String × JVal)) :
    handle_mcp_request uuid env up "create_conversation" (.ok (JVal.obj fs)) st =
      ⟨.ok (JVal.obj [("conversation_id", JVal.str (uuid st.nextId)),
                      ("success", JVal.bool true)]),
       ⟨storeSet st.conversations (uuid st.nextId)
          (mkConvObj (uuid st.nextId) fs), st.nextId + 1⟩, []⟩
  ∧ storeGet (storeSet st.conversations (uuid st.nextId)
        (mkConvObj (uuid st.nextId) fs)) (uuid st.nextId) =
      some (mkConvObj (uuid st.nextId) fs)
  ∧ (mkConvObj (uuid st.nextId) fs).messages = []
  ∧ (fieldsGet fs "title" = none →
      (mkConvObj (uuid st.nextId) fs).title = JVal.str "New Conversation") := by
  refine ⟨?_, storeGet_storeSet_self _ _ _, rfl, ?_⟩
  · simp [handle_mcp_request, stepE, pyGetE, mkConvObj]
  · intro h
    simp [mkConvObj, h]

/-- Witness for `c8_create_conversation` with no parameters supplied. -/
theorem c8_witness :
    handle_mcp_request exUuid exEnv exUpstream500 "create_conversation"
        (.ok (JVal.obj [])) exState =
      ⟨.ok (JVal.obj [("conversation_id", JVal.str "id0"),
                      ("success", JVal.bool true)]),
       ⟨storeSet exState.conversations "id0" (mkConvObj "id0" []), 1⟩, []⟩
  ∧ (mkConvObj "id0" []).messages = []
  ∧ (mkConvObj "id0" []).title = JVal.str "New Conversation" :=
  ⟨(c8_create_conversation exUuid exEnv exUpstream500 exState []).1,
   (c8_create_conversation exUuid exEnv exUpstream500 exState []).2.2.1,
   (c8_create_conversation exUuid exEnv exUpstream500 exState []).2.2.2 rfl⟩

/-- C9: whatever the function name and server state, a request body that
fails JSON decoding makes the dispatcher return the Invalid JSON error
object as an ordinary (HTTP 200) result, with the conversation store left
unchanged and no upstream request issued. -/
theorem c9_invalid_json (uuid : Nat → String) (env : Env)
    (up : HttpRequest → HttpResponse) (fn : String) (st : ServerState) :
    handle_mcp_request uuid env up fn (.error ()) st =
      ⟨.ok (JVal.obj [("error", JVal.str "Invalid JSON")]), st, []⟩ := rfl

/-- C10: `add_message` on a stored conversation with the `message`
parameter supplied as the empty JSON object (falsy in Python) returns the
same validation error object as a missing message, leaving the store — in
particular the conversation's messages and `updated_at` — unchanged. -/
theorem c10_empty_message_obj (uuid : Nat → String) (env : Env)
    (up : HttpRequest → HttpResponse) (st : ServerState) (k : String)
    (conv : Conversation) (hk : k ≠ "")
    (h : storeGet st.conversations k = some conv) :
    handle_mcp_request uuid env up "add_message"
        (.ok (addMsgParams k (JVal.obj []))) st =
      ⟨.ok (JVal.obj [("error", JVal.str "message param required")]), st, []⟩ := by
  simp [handle_mcp_request, addMsgParams, stepE, pyGetE, fieldsGet, alookup,
    jtruthy, hk, h]

/-- Witness for `c10_empty_message_obj` at a concrete one-entry store. -/
theorem c10_witness :
    handle_mcp_request exUuid exEnv exUpstream500 "add_message"
        (.ok (addMsgParams "c1" (JVal.obj []))) exStState =
      ⟨.ok (JVal.obj [("error", JVal.str "message param required")]),
       exStState, []⟩ :=
  c10_empty_message_obj exUuid exEnv exUpstream500 exStState "c1" exConv
    (by decide) rfl

end Serena
